import Mathlib

/-!
Verification development for the Swiss Sonnendach API investigation script
(`investigate_sonnendach_api.py`).  The script issues HTTP probes against a
geospatial API and prints summaries.  We embed each probe shallowly: the HTTP
layer is replaced by an explicit response value (transport failure, or a
status code together with raw text and an optionally-parsed JSON/XML body),
and console output is modelled as a list of output events mirroring the
print statements.  Every probe of the source becomes a total Lean function
of its response, so the absence of uncaught exceptions is inherent in the
model; the interesting content is which value each probe returns on each
class of response.
-/

namespace Sonnendach

/-- Truth of `leadsWith pat l` means `pat` is an initial segment of `l`
(character-by-character comparison). -/
def leadsWith : List Char → List Char → Bool
  | [], _ => true
  | _ :: _, [] => false
  | a :: as, b :: bs => a == b && leadsWith as bs

/-- Truth of `hasSub pat l` means `pat` occurs contiguously inside `l`;
this models the Python expression `pat in s` on strings. -/
def hasSub (pat : List Char) : List Char → Bool
  | [] => pat.isEmpty
  | c :: cs => leadsWith pat (c :: cs) || hasSub pat cs

/-- The Python substring test `pat in s`. -/
def occursIn (pat s : String) : Bool := hasSub pat.data s.data

/-- ASCII lowercasing of one character, as Python `str.lower()` acts on the
ASCII identifiers and names involved here. -/
def lowerChar (c : Char) : Char :=
  if 'A' ≤ c ∧ c ≤ 'Z' then Char.ofNat (c.toNat + 32) else c

/-- Python `s.lower()` on ASCII strings. -/
def strLower (s : String) : String := String.mk (s.data.map lowerChar)

/-- The fixed keyword set used by the layer filters (source lines 38 and 159). -/
def solar_keywords : List String := ["solar", "sonnendach", "bfe", "energie"]

/-- The source expression `any(keyword in s.lower() for keyword in keywords)`. -/
def matchesKeywords (s : String) : Bool :=
  solar_keywords.any (fun k => occursIn k (strLower s))

/-- One entry of the layer-catalog JSON body.  Each field is optional,
modelling `dict.get` with a default on a JSON object. -/
structure LayerJson where
  layerId : Option String
  name : Option String
  typ : Option String
deriving Repr, DecidableEq

/-- The parsed catalog body; `layers = none` models a JSON object without
a top-level key named layers (`data.get` then yields the default). -/
structure CatalogBody where
  layers : Option (List LayerJson)
deriving Repr, DecidableEq

/-- Outcome of one HTTP request, as seen by a probe.  `exc` is a transport
exception (connection refused, timeout, ...); `resp status text body` is a
received response with its status code, raw text, and the result of parsing
the body (`none` when parsing raises). -/
inductive HttpResp (β : Type) where
  | exc : HttpResp β
  | resp (status : Nat) (text : String) (body : Option β) : HttpResp β
deriving Repr, DecidableEq

/-- A filtered catalog entry as assembled by `investigate_geoadmin_layers`
(source lines 39-43). -/
structure SolarLayer where
  id : String
  name : String
  typ : String
deriving Repr, DecidableEq

/-- Embedding of `investigate_geoadmin_layers` (source lines 20-56): on a 200
response with a parsed body it filters the catalog entries whose `layerId`
contains one of the keywords, case-insensitively; any other outcome
(non-200 status, body parse failure, transport exception) yields `[]`. -/
def investigate_geoadmin_layers (r : HttpResp CatalogBody) : List SolarLayer :=
  match r with
  | .exc => []
  | .resp status _ body =>
    if status == 200 then
      match body with
      | none => []
      | some data =>
        (data.layers.getD []).filterMap (fun layer =>
          let layer_id := layer.layerId.getD ""
          let layer_name := layer.name.getD ""
          if matchesKeywords layer_id then
            some { id := layer_id, name := layer_name, typ := layer.typ.getD "unknown" }
          else
            none)
    else []

/-- An XML element: tag, text content (may be absent, as in ElementTree),
and child elements in document order. -/
inductive XmlElem where
  | mk (tag : String) (text : Option String) (children : List XmlElem)

/-- The tag of an element. -/
def XmlElem.tag : XmlElem → String
  | .mk t _ _ => t

/-- The text of an element (`None` in Python becomes `none`). -/
def XmlElem.text : XmlElem → Option String
  | .mk _ x _ => x

/-- The children of an element. -/
def XmlElem.children : XmlElem → List XmlElem
  | .mk _ _ cs => cs

mutual
/-- ElementTree `root.iter()`: every element of the tree in document order,
the element itself included. -/
def XmlElem.iterAll : XmlElem → List XmlElem
  | .mk t x cs => .mk t x cs :: iterAllList cs

/-- Preorder traversal of a forest, used by `XmlElem.iterAll`. -/
def iterAllList : List XmlElem → List XmlElem
  | [] => []
  | c :: cs => c.iterAll ++ iterAllList cs
end

mutual
/-- First element with the given tag in the subtree rooted at an element
(the element itself included), in document order. -/
def findFromElem (tag : String) : XmlElem → Option XmlElem
  | .mk t x cs =>
    if t == tag then some (.mk t x cs)
    else findDesc tag cs

/-- ElementTree `elem.find(".//tag")` applied to a child list: the first one with
the given tag, in document order; `none` when there is none. -/
def findDesc (tag : String) : List XmlElem → Option XmlElem
  | [] => none
  | c :: rest =>
    match findFromElem tag c with
    | some r => some r
    | none => findDesc tag rest
end

/-- The namespaced Name tag searched for in the WMS capabilities document. -/
def wmsNameTag : String := "\x7bhttp://www.opengis.net/wms\x7dName"

/-- The namespaced Title tag searched for in the WMS capabilities document. -/
def wmsTitleTag : String := "\x7bhttp://www.opengis.net/wms\x7dTitle"

/-- A WMS layer entry as assembled on source line 160.  `title` is an
`Option` because in Python a found Title element with no text yields
`None` for the title value. -/
structure WmsLayer where
  name : String
  title : Option String
deriving Repr, DecidableEq

/-- Embedding of `investigate_wms_layers` (source lines 129-173): on a 200
response whose body parses as XML it walks every element, keeps those whose
tag contains Layer and that have a Name descendant with non-empty text whose
text contains a keyword case-insensitively; otherwise it returns `[]`. -/
def investigate_wms_layers (r : HttpResp XmlElem) : List WmsLayer :=
  match r with
  | .exc => []
  | .resp status _ body =>
    if status == 200 then
      match body with
      | none => []
      | some root =>
        root.iterAll.filterMap (fun layer =>
          if occursIn "Layer" layer.tag then
            match findDesc wmsNameTag layer.children with
            | some nameElem =>
              match nameElem.text with
              | some name =>
                if name ≠ "" then
                  let title :=
                    match findDesc wmsTitleTag layer.children with
                    | some titleElem => titleElem.text
                    | none => some ""
                  if matchesKeywords name then some { name := name, title := title }
                  else none
                else none
              | none => none
            | none => none
          else none)
    else []

/-- One entry of the identify response list; `attributes = none` models a
result object without an attributes key (`result.get` yields the default). -/
structure ResultJson where
  attributes : Option (List (String × String))
deriving Repr, DecidableEq

/-- The parsed identify body; `results = none` models a JSON object without
a top-level key named results. -/
structure IdentifyBody where
  results : Option (List ResultJson)
deriving Repr, DecidableEq

/-- The query parameters of an identify request.  Numeric values that the
source formats into strings are kept as exact rationals. -/
structure IdentifyParams where
  geometry : ℚ × ℚ
  geometryType : String
  layers : String
  mapExtent : ℚ × ℚ × ℚ × ℚ
  imageDisplay : String
  tolerance : Nat
  returnGeometry : String
  geometryFormat : Option String
  sr : Nat
  lang : String
deriving Repr, DecidableEq

/-- The request parameters built by `test_layer_identify`
(source lines 90-101): bounding box of half-width 500 around the point. -/
def identifyParams (layer_id : String) (x y : ℚ) : IdentifyParams :=
  { geometry := (x, y)
    geometryType := "esriGeometryPoint"
    layers := "all:" ++ layer_id
    mapExtent := (x - 500, y - 500, x + 500, y + 500)
    imageDisplay := "500,500,96"
    tolerance := 100
    returnGeometry := "true"
    geometryFormat := some "geojson"
    sr := 2056
    lang := "en" }

/-- The request parameters built by `test_layer_identify_simple`
(source lines 237-247): bounding box of half-width 100 around the point. -/
def identifyParamsSimple (layer_id : String) (x y : ℚ) : IdentifyParams :=
  { geometry := (x, y)
    geometryType := "esriGeometryPoint"
    layers := "all:" ++ layer_id
    mapExtent := (x - 100, y - 100, x + 100, y + 100)
    imageDisplay := "200,200,96"
    tolerance := 50
    returnGeometry := "true"
    geometryFormat := none
    sr := 2056
    lang := "en" }

/-- One console line of `test_layer_identify`; each constructor stands for
one print statement of the source, carrying its dynamic data. -/
inductive IdLine where
  | testingAt (x y : ℚ)
  | success (n : Nat)
  | sampleHeader
  | attr (k v : String)
  | moreAttrs (n : Nat)
  | noDataFound
  | failed (status : Nat)
  | respSnippet (t : String)
  | errCaught
deriving Repr, DecidableEq

/-- The exact text printed when `IdLine.noDataFound` is emitted
(source line 120). -/
def noDataLine : String := "   ⚠️  No data found at test coordinates"

/-- Embedding of `test_layer_identify` (source lines 84-127).  It returns the
request parameters it sends together with the console lines it prints; the
Python function itself returns `None`.  On 200 with results it prints the
count, a header, the first five attributes of the first result and possibly
a more-attributes line; on 200 without results it prints the no-data line;
on non-200 a failure line plus a snippet of the raw text when non-empty;
any exception (transport or body parse) is caught and reported. -/
def test_layer_identify (layer_id : String) (x y : ℚ) (r : HttpResp IdentifyBody) :
    IdentifyParams × List IdLine :=
  (identifyParams layer_id x y,
    IdLine.testingAt x y ::
      match r with
      | .exc => [IdLine.errCaught]
      | .resp status text body =>
        if status == 200 then
          match body with
          | none => [IdLine.errCaught]
          | some data =>
            let results := data.results.getD []
            IdLine.success results.length ::
              match results with
              | [] => [IdLine.noDataFound]
              | result :: _ =>
                let attrs := result.attributes.getD []
                IdLine.sampleHeader ::
                  (attrs.take 5).map (fun kv => IdLine.attr kv.1 kv.2) ++
                    if attrs.length > 5 then [IdLine.moreAttrs (attrs.length - 5)]
                    else []
        else
          IdLine.failed status ::
            if text ≠ "" then [IdLine.respSnippet (text.take 200)] else [])

/-- One console line of `test_layer_identify_simple`. -/
inductive SimpleLine where
  | successFound (n : Nat)
  | attrKeys (ks : List String)
  | noData
  | httpFail (status : Nat)
  | errCaught
deriving Repr, DecidableEq

/-- Embedding of `test_layer_identify_simple` (source lines 233-268).  It
returns the request it sends, its boolean result, and its console lines.
The source returns `True` only on the 200-with-nonempty-results path
(line 259); every other path falls through to `return False` (line 268). -/
def test_layer_identify_simple (layer_id : String) (x y : ℚ)
    (r : HttpResp IdentifyBody) : IdentifyParams × Bool × List SimpleLine :=
  (identifyParamsSimple layer_id x y,
    match r with
    | .exc => (false, [SimpleLine.errCaught])
    | .resp status _ body =>
      if status == 200 then
        match body with
        | none => (false, [SimpleLine.errCaught])
        | some data =>
          let results := data.results.getD []
          match results with
          | [] => (false, [SimpleLine.noData])
          | result :: _ =>
            let attrs := result.attributes.getD []
            (true, [SimpleLine.successFound results.length,
                    SimpleLine.attrKeys ((attrs.map Prod.fst).take 10)])
      else (false, [SimpleLine.httpFail status]))

/-- The fixed candidate list of `search_for_correct_layer_name`
(source lines 214-225). -/
def layer_variations : List String :=
  ["ch.bfe.sonnendach",
   "ch.bfe.sonnendach-potentiale",
   "ch.bfe.sonnendach-eigenverbrauch",
   "ch.bfe.solar-potentiale",
   "ch.bfe.solar",
   "ch.sfoe.sonnendach",
   "ch.uvek.sonnendach",
   "ch.admin.sonnendach",
   "ch.energie.sonnendach",
   "ch.bfe.solarkataster"]

/-- The fixed test coordinate used by the brute-force search
(source line 227) and by `test_layer_capabilities` (source line 75). -/
def search_test_coords : ℚ × ℚ := (605075.4, 197225.3)

/-- One invocation of the simplified identify probe performed by the
brute-force search: the candidate name, the coordinate passed, and the
boolean the probe returned. -/
structure ProbeCall where
  layerName : String
  coords : ℚ × ℚ
  result : Bool
deriving Repr, DecidableEq

/-- Embedding of `search_for_correct_layer_name` (source lines 209-231): a
loop over the fixed candidate list which calls the simplified identify probe
on each candidate at the fixed test coordinate.  `env` supplies the HTTP
response each probe receives for a given candidate name.  The returned list
records the probe invocations in the order the loop performs them. -/
def search_for_correct_layer_name (env : String → HttpResp IdentifyBody) :
    List ProbeCall :=
  layer_variations.foldl
    (fun acc layer_name =>
      acc ++ [{ layerName := layer_name
                coords := search_test_coords
                result := (test_layer_identify_simple layer_name
                  search_test_coords.1 search_test_coords.2 (env layer_name)).2.1 }])
    []

/-- One step of the full investigation, at the granularity of the calls made
by `run_full_investigation`; banners are the framed header and footer lines. -/
inductive Step where
  | banner (s : String)
  | listLayers
  | testCapabilities (layerId : String)
  | wmsCapabilities
  | nameSearch
  | altEndpoints
deriving Repr, DecidableEq

/-- The 60-character separator line printed around the investigation. -/
def sepLine : String := String.mk (List.replicate 60 '=')

/-- Responses the environment supplies to the full investigation: the
catalog response, the WMS capabilities response, and a response per
identify request keyed by layer name. -/
structure Env where
  geoCatalog : HttpResp CatalogBody
  wms : HttpResp XmlElem
  identify : String → HttpResp IdentifyBody

/-- Embedding of `run_full_investigation` (source lines 270-293) as the
sequence of steps it performs: header banners, the layer listing, one
capabilities test per layer among the first three filtered layers, the WMS
enumeration, the brute-force name search, the alternative-endpoint probes,
and footer banners. -/
def run_full_investigation (env : Env) : List Step :=
  [Step.banner "🇨🇭 COMPREHENSIVE SONNENDACH API INVESTIGATION",
   Step.banner sepLine,
   Step.listLayers] ++
  ((investigate_geoadmin_layers env.geoCatalog).take 3).map
    (fun layer => Step.testCapabilities layer.id) ++
  [Step.wmsCapabilities,
   Step.nameSearch,
   Step.altEndpoints,
   Step.banner sepLine,
   Step.banner "🏁 INVESTIGATION COMPLETE",
   Step.banner sepLine]

/-- Is this step a layer-capabilities test? -/
def isDescribeStep : Step → Bool
  | Step.testCapabilities _ => true
  | _ => false

/-- The phase marker of a step: banners and the per-layer capability tests
are dropped, the four fixed phases are kept. -/
def phaseOf : Step → Option Step
  | Step.banner _ => none
  | Step.testCapabilities _ => none
  | s => some s

/-- A left fold that appends one element per item is a map. -/
theorem foldl_snoc_eq_map {α β : Type} (f : α → β) (l : List α) (acc : List β) :
    l.foldl (fun a x => a ++ [f x]) acc = acc ++ l.map f := by
  induction l generalizing acc with
  | nil => simp
  | cons x xs ih => simp [List.foldl_cons, ih]

/-- C1: the layer-catalog filter of `investigate_geoadmin_layers` consults
only the identifier, so an entry named Solar-Potential whose identifier
contains no keyword is NOT returned, although its name matches keyword
solar case-insensitively.  This refutes the claim that the filter keeps an
entry whenever its identifier or its name contains a keyword. -/
theorem c1_name_match_not_returned :
    matchesKeywords "Solar-Potential" = true ∧
    investigate_geoadmin_layers
      (HttpResp.resp 200 ""
        (some { layers := some [{ layerId := some "ch.swisstopo.roofdata",
                                  name := some "Solar-Potential",
                                  typ := some "vector" }] })) = [] := by
  decide

/-- C1 (amended): an entry of a 200 catalog response is in the returned
filtered subset exactly when its identifier contains one of the keywords
solar, sonnendach, bfe, energie as a case-insensitive substring; the name
field is not consulted by the filter. -/
theorem c1_filter_uses_identifier_only (t : String) (data : CatalogBody)
    (s : SolarLayer) :
    s ∈ investigate_geoadmin_layers (HttpResp.resp 200 t (some data)) ↔
      ∃ layer, layer ∈ data.layers.getD [] ∧
        matchesKeywords (layer.layerId.getD "") = true ∧
        s = { id := layer.layerId.getD "", name := layer.name.getD "",
              typ := layer.typ.getD "unknown" } := by
  have h : investigate_geoadmin_layers (HttpResp.resp 200 t (some data)) =
      (data.layers.getD []).filterMap (fun layer =>
        if matchesKeywords (layer.layerId.getD "") then
          some { id := layer.layerId.getD "", name := layer.name.getD "",
                 typ := layer.typ.getD "unknown" }
        else none) := rfl
  rw [h, List.mem_filterMap]
  constructor
  · rintro ⟨layer, hmem, hf⟩
    by_cases hk : matchesKeywords (layer.layerId.getD "") = true
    · rw [if_pos hk] at hf
      exact ⟨layer, hmem, hk, (Option.some.inj hf).symm⟩
    · rw [if_neg hk] at hf
      exact absurd hf (by simp)
  · rintro ⟨layer, hmem, hk, hs⟩
    exact ⟨layer, hmem, by rw [if_pos hk, hs]⟩

/-- C2: on any non-200 response, the layer listing and the WMS enumeration
return the empty list and the simplified identify probe returns false;
in this total-function embedding no exception can escape to the caller. -/
theorem c2_non200_empty_or_false (status : Nat) (h : status ≠ 200)
    (t1 t2 t3 : String) (b1 : Option CatalogBody) (b2 : Option XmlElem)
    (b3 : Option IdentifyBody) (l : String) (x y : ℚ) :
    investigate_geoadmin_layers (HttpResp.resp status t1 b1) = [] ∧
    investigate_wms_layers (HttpResp.resp status t2 b2) = [] ∧
    (test_layer_identify_simple l x y (HttpResp.resp status t3 b3)).2.1 = false := by
  have hb : (status == 200) = false := beq_eq_false_iff_ne.mpr h
  refine ⟨?_, ?_, ?_⟩ <;>
    simp [investigate_geoadmin_layers, investigate_wms_layers,
      test_layer_identify_simple, hb]

/-- Witness for C2 at the concrete status 404. -/
theorem c2_non200_witness :
    investigate_geoadmin_layers (HttpResp.resp 404 "" none) = [] ∧
    investigate_wms_layers (HttpResp.resp 404 "" none) = [] ∧
    (test_layer_identify_simple "ch.bfe.sonnendach" 0 0
      (HttpResp.resp 404 "" none)).2.1 = false :=
  c2_non200_empty_or_false 404 (by decide) "" "" "" none none none
    "ch.bfe.sonnendach" 0 0

/-- C3: on a transport exception, and on a 200 response whose body fails to
parse, every probe returns its empty or false default; the Lean embedding is
a total function, so the exception is absorbed inside the probe and the
surrounding sequence always continues. -/
theorem c3_exception_and_parse_failure_absorbed (t1 t2 t3 t4 : String)
    (l : String) (x y : ℚ) :
    investigate_geoadmin_layers HttpResp.exc = [] ∧
    investigate_geoadmin_layers (HttpResp.resp 200 t1 none) = [] ∧
    investigate_wms_layers HttpResp.exc = [] ∧
    investigate_wms_layers (HttpResp.resp 200 t2 none) = [] ∧
    (test_layer_identify_simple l x y HttpResp.exc).2.1 = false ∧
    (test_layer_identify_simple l x y (HttpResp.resp 200 t3 none)).2.1 = false ∧
    (test_layer_identify l x y HttpResp.exc).2 =
      [IdLine.testingAt x y, IdLine.errCaught] ∧
    (test_layer_identify l x y (HttpResp.resp 200 t4 none)).2 =
      [IdLine.testingAt x y, IdLine.errCaught] :=
  ⟨rfl, rfl, rfl, rfl, rfl, rfl, rfl, rfl⟩

/-- C5: on the mocked 200 catalog response with the single entry
ch.bfe.solarkataster named Solar of type vector, the layer listing returns
exactly that entry (its identifier contains both bfe and solar). -/
theorem c5_mocked_catalog_single_entry :
    investigate_geoadmin_layers
      (HttpResp.resp 200 ""
        (some { layers := some [{ layerId := some "ch.bfe.solarkataster",
                                  name := some "Solar",
                                  typ := some "vector" }] })) =
      [{ id := "ch.bfe.solarkataster", name := "Solar", typ := "vector" }] := by
  decide

/-- C4: the simplified identify probe returns true exactly when the response
is an HTTP 200 whose body parsed and whose results list is non-empty; on
every other outcome (non-200 status, transport exception, parse failure,
empty or absent results list) it returns false. -/
theorem c4_simple_true_iff_nonempty_results (l : String) (x y : ℚ)
    (r : HttpResp IdentifyBody) :
    (test_layer_identify_simple l x y r).2.1 = true ↔
      ∃ t data, r = HttpResp.resp 200 t (some data) ∧
        data.results.getD [] ≠ [] := by
  cases r with
  | exc => simp [test_layer_identify_simple]
  | resp status t body =>
    by_cases hs : status = 200
    · subst hs
      cases body with
      | none => simp [test_layer_identify_simple]
      | some data =>
        cases hres : data.results.getD [] with
        | nil => simp [test_layer_identify_simple, hres]
        | cons a as =>
          simp [test_layer_identify_simple, hres]
          exact ⟨t, data, ⟨rfl, rfl⟩, by rw [hres]; simp⟩
    · have hb : (status == 200) = false := beq_eq_false_iff_ne.mpr hs
      simp [test_layer_identify_simple, hb, hs]

/-- C6: on a mocked 200 identify response whose body is the empty results
list, the point-identify probe emits the no-data line (whose printed text
contains the words No data found) and the simplified probe returns false;
both are total, so no error is raised. -/
theorem c6_empty_results_reports_no_data :
    IdLine.noDataFound ∈
      (test_layer_identify "ch.bfe.sonnendach" 605075.4 197225.3
        (HttpResp.resp 200 "" (some { results := some [] }))).2 ∧
    occursIn "No data found" noDataLine = true ∧
    (test_layer_identify_simple "ch.bfe.sonnendach" 605075.4 197225.3
        (HttpResp.resp 200 "" (some { results := some [] }))).2.1 = false ∧
    (test_layer_identify_simple "ch.bfe.sonnendach" 605075.4 197225.3
        (HttpResp.resp 200 "" (some { results := some [] }))).2.2 =
      [SimpleLine.noData] := by
  refine ⟨?_, by decide, rfl, rfl⟩
  show IdLine.noDataFound ∈ [IdLine.testingAt 605075.4 197225.3,
    IdLine.success 0, IdLine.noDataFound]
  simp

/-- C7: both identify probes build their mapExtent as a square box centered
on the supplied coordinate pair: half-width 500 for `test_layer_identify`
and 100 for `test_layer_identify_simple`. -/
theorem c7_mapExtent_centered_symmetric (l : String) (x y : ℚ)
    (r r2 : HttpResp IdentifyBody) :
    ((test_layer_identify l x y r).1.mapExtent =
        (x - 500, y - 500, x + 500, y + 500) ∧
      x - (test_layer_identify l x y r).1.mapExtent.1 = 500 ∧
      (test_layer_identify l x y r).1.mapExtent.2.2.1 - x = 500 ∧
      y - (test_layer_identify l x y r).1.mapExtent.2.1 = 500 ∧
      (test_layer_identify l x y r).1.mapExtent.2.2.2 - y = 500) ∧
    ((test_layer_identify_simple l x y r2).1.mapExtent =
        (x - 100, y - 100, x + 100, y + 100) ∧
      x - (test_layer_identify_simple l x y r2).1.mapExtent.1 = 100 ∧
      (test_layer_identify_simple l x y r2).1.mapExtent.2.2.1 - x = 100 ∧
      y - (test_layer_identify_simple l x y r2).1.mapExtent.2.1 = 100 ∧
      (test_layer_identify_simple l x y r2).1.mapExtent.2.2.2 - y = 100) := by
  refine ⟨⟨rfl, ?_, ?_, ?_, ?_⟩, ⟨rfl, ?_, ?_, ?_, ?_⟩⟩
  · show x - (x - 500) = 500; ring
  · show (x + 500) - x = 500; ring
  · show y - (y - 500) = 500; ring
  · show (y + 500) - y = 500; ring
  · show x - (x - 100) = 100; ring
  · show (x + 100) - x = 100; ring
  · show y - (y - 100) = 100; ring
  · show (y + 100) - y = 100; ring

/-- C8: whatever responses the network returns, the brute-force search
performs exactly one simplified-probe call per candidate of the fixed
10-element list, in list order, always at the fixed test coordinate; the
call list is a pointwise map of the candidate list, so no state flows from
one candidate to the next. -/
theorem c8_search_once_per_candidate_in_order
    (env : String → HttpResp IdentifyBody) :
    search_for_correct_layer_name env =
      layer_variations.map (fun layer_name =>
        { layerName := layer_name
          coords := search_test_coords
          result := (test_layer_identify_simple layer_name
            search_test_coords.1 search_test_coords.2 (env layer_name)).2.1 }) ∧
    (search_for_correct_layer_name env).length = 10 ∧
    (search_for_correct_layer_name env).map ProbeCall.layerName =
      layer_variations ∧
    ∀ c ∈ search_for_correct_layer_name env, c.coords = search_test_coords := by
  have h : search_for_correct_layer_name env =
      layer_variations.map (fun layer_name =>
        { layerName := layer_name
          coords := search_test_coords
          result := (test_layer_identify_simple layer_name
            search_test_coords.1 search_test_coords.2 (env layer_name)).2.1 }) := by
    unfold search_for_correct_layer_name
    rw [foldl_snoc_eq_map]
    simp
  refine ⟨h, ?_, ?_, ?_⟩
  · rw [h, List.length_map]
    rfl
  · rw [h]
    rfl
  · intro c hc
    rw [h] at hc
    rcases List.mem_map.mp hc with ⟨name, _, rfl⟩
    rfl

/-- C9: the full investigation is the fixed sequence header banners, layer
listing, capability tests of at most the first three filtered layers, WMS
enumeration, brute-force name search, alternative-endpoint probes, footer
banners; the number of capability tests never exceeds three, and dropping
banners and capability tests always leaves the four phases in the fixed
order. -/
theorem c9_full_investigation_order (env : Env) :
    run_full_investigation env =
      [Step.banner "🇨🇭 COMPREHENSIVE SONNENDACH API INVESTIGATION",
       Step.banner sepLine, Step.listLayers] ++
      ((investigate_geoadmin_layers env.geoCatalog).take 3).map
        (fun layer => Step.testCapabilities layer.id) ++
      [Step.wmsCapabilities, Step.nameSearch, Step.altEndpoints,
       Step.banner sepLine, Step.banner "🏁 INVESTIGATION COMPLETE",
       Step.banner sepLine] ∧
    ((run_full_investigation env).filter isDescribeStep).length ≤ 3 ∧
    (run_full_investigation env).filterMap phaseOf =
      [Step.listLayers, Step.wmsCapabilities, Step.nameSearch,
       Step.altEndpoints] := by
  refine ⟨rfl, ?_, ?_⟩
  · have hlit : (run_full_investigation env).filter isDescribeStep =
        ((investigate_geoadmin_layers env.geoCatalog).take 3).map
          (fun layer => Step.testCapabilities layer.id) := by
      simp [run_full_investigation, List.filter_append, List.filter_map,
        isDescribeStep, Function.comp]
      intro a ha
      rcases List.mem_map.mp (List.take_subset _ _ ha) with ⟨layer, _, rfl⟩
      rfl
    rw [hlit, List.length_map, List.length_take]
    exact min_le_left _ _
  · simp only [run_full_investigation, List.filterMap_append, List.filterMap_map]
    simp [phaseOf, Function.comp]

/-- C10: a 200 response whose JSON body lacks the expected top-level key is
treated as an empty collection, not as an error: a catalog body without a
layers key yields the empty list, and an identify body without a results
key makes the point probe report zero results and the simplified probe
return false. -/
theorem c10_missing_key_treated_as_empty (t : String) (l : String) (x y : ℚ) :
    investigate_geoadmin_layers
      (HttpResp.resp 200 t (some { layers := none })) = [] ∧
    (test_layer_identify_simple l x y
      (HttpResp.resp 200 t (some { results := none }))).2.1 = false ∧
    (test_layer_identify l x y
      (HttpResp.resp 200 t (some { results := none }))).2 =
      [IdLine.testingAt x y, IdLine.success 0, IdLine.noDataFound] :=
  ⟨rfl, rfl, rfl⟩

end Sonnendach
